import Mathlib

/-!
Verification of the synapscribe-backend serverless handlers.

The repository consists of five independent Go handlers: user registration,
user authentication, user profile management, media upload, and audio
transcription.  Each handler is a linear chain of fallible external calls
(identity provider, object storage, generative model).  We embed each handler
as a pure Lean function over an explicit record of the outcomes of its
external calls (a "world"), and the pure helper functions (validation, regex
matching, filename classification, URL parsing) as direct Lean translations.

Go strings are modelled as lists of Unicode codepoints (`List Nat`).  Go's
`len` on a string counts UTF-8 bytes, which we model with `utf8Len`.  The Go
`strings.ToLower` / `strings.ToUpper` functions are modelled on the ASCII
fragment of Unicode's simple case mapping (identity elsewhere); theorems that
depend on case mapping therefore carry an ASCII hypothesis where honesty
requires it.
-/

namespace SynapScribe

/-- A Go string, as its list of Unicode codepoints. -/
abbrev Str := List Nat

/-- Convert a Lean string literal to the codepoint-list model. -/
def str (s : String) : Str := s.toList.map Char.toNat

/-- ASCII fragment of Go's `unicode.ToLower` (simple case mapping):
uppercase ASCII letters map to lowercase, everything else is unchanged. -/
def goToLower (c : Nat) : Nat := if 65 ≤ c ∧ c ≤ 90 then c + 32 else c

/-- ASCII fragment of Go's `unicode.ToUpper`: lowercase ASCII letters map to
uppercase, everything else is unchanged. -/
def goToUpper (c : Nat) : Nat := if 97 ≤ c ∧ c ≤ 122 then c - 32 else c

/-- Number of bytes in the UTF-8 encoding of one codepoint. -/
def utf8Size (c : Nat) : Nat :=
  if c < 128 then 1 else if c < 2048 then 2 else if c < 65536 then 3 else 4

/-- Go `len(s)` on a string: the number of UTF-8 bytes. -/
def utf8Len (s : Str) : Nat := (s.map utf8Size).sum

/-- Go `unicode.IsSpace` restricted to the Latin-1 range (which is all of it
below U+0100): tab through carriage return, space, NEL, and NBSP. -/
def goIsSpace (c : Nat) : Bool :=
  (decide (9 ≤ c) && decide (c ≤ 13)) || c == 32 || c == 133 || c == 160

/-- Go `strings.TrimSpace`: drop leading and trailing whitespace. -/
def trimSpace (s : Str) : Str :=
  ((s.dropWhile goIsSpace).reverse.dropWhile goIsSpace).reverse

/-- Split a list at the first occurrence of `a`: returns the part before and
the part after that occurrence, or `none` when `a` does not occur.  This is
Go `strings.SplitN(s, sep, 2)` for a one-codepoint separator, and the worker
for the anchored regex matcher below. -/
def breakAtFirst (a : Nat) : Str → Option (Str × Str)
  | [] => none
  | x :: xs =>
    if x = a then some ([], xs)
    else
      match breakAtFirst a xs with
      | none => none
      | some (l, r) => some (x :: l, r)

/-- Codepoint is an ASCII lowercase letter `[a-z]`. -/
def isLowerLetter (c : Nat) : Bool := decide (97 ≤ c) && decide (c ≤ 122)

/-- Codepoint is an ASCII digit `[0-9]`. -/
def isDigitChar (c : Nat) : Bool := decide (48 ≤ c) && decide (c ≤ 57)

/-! ### Registration handler (package `user`)

Source: `src/unnamed/part_000`.  The email pattern is the Go regexp literal
`^[a-z0-9._%+\-]+@[a-z0-9.\-]+\.[a-z]{2,4}$`. -/

/-- Character class `[a-z0-9._%+-]` of the email pattern's local part.
Codepoints 46 `.`, 95 `_`, 37 `%`, 43 `+`, 45 `-`. -/
def localChar (c : Nat) : Bool :=
  isLowerLetter c || isDigitChar c || c == 46 || c == 95 || c == 37 || c == 43 || c == 45

/-- Character class `[a-z0-9.-]` of the email pattern's domain part. -/
def domainChar (c : Nat) : Bool :=
  isLowerLetter c || isDigitChar c || c == 46 || c == 45

/-- Matcher for the anchored domain fragment `[a-z0-9.-]+\.[a-z]{2,4}$`.
A string is in this language iff it splits at some `.` into a nonempty
`[a-z0-9.-]*` part and a 2-4 letter `[a-z]` tail reaching the end; because
the tail contains no `.`, that dot is necessarily the LAST dot of the string,
so the split at the last dot is the only candidate.  We find the last dot as
the first dot (codepoint 46) of the reversed string. -/
def matchDomain (d : Str) : Bool :=
  match breakAtFirst 46 d.reverse with
  | none => false
  | some (rsuf, rpre) =>
    !rpre.isEmpty && rpre.all domainChar &&
      decide (2 ≤ rsuf.length) && decide (rsuf.length ≤ 4) && rsuf.all isLowerLetter

/-- Matcher for the full anchored email pattern
`^[a-z0-9._%+\-]+@[a-z0-9.\-]+\.[a-z]{2,4}$` (the regexp `emailRegex` of the
source).  Neither character class contains `@` (codepoint 64), so a matching
string contains exactly one `@` and the split at the first `@` is the only
candidate decomposition into local part and domain. -/
def matchEmail (s : Str) : Bool :=
  match breakAtFirst 64 s with
  | none => false
  | some (l, d) => !l.isEmpty && l.all localChar && matchDomain d

/-- Source `containsUppercase`: `strings.ToLower(s) != s`. -/
def containsUppercase (s : Str) : Bool := s.map goToLower != s

/-- Source `containsLowercase`: `strings.ToUpper(s) != s`. -/
def containsLowercase (s : Str) : Bool := s.map goToUpper != s

/-- Source `containsNumber`: some rune of `s` is between `'0'` and `'9'`. -/
def containsNumber (s : Str) : Bool := s.any isDigitChar

/-- The registration request record (source struct `User`; the `ID` field is
never read by the handler and is omitted). -/
structure User where
  email : Str
  password : Str
  name : Str
deriving DecidableEq

/-- Source method `(*User).Validate`: checks run in order — email pattern,
password byte length, password character classes, non-blank name.  Returns
`some errorMessage` on the first failure, `none` on success. -/
def Validate (u : User) : Option Str :=
  if matchEmail u.email = false then
    some (str ("invalid email format"))
  else if utf8Len u.password < 8 then
    some (str ("password must be at least 8 characters long"))
  else if containsUppercase u.password = false ∨ containsLowercase u.password = false ∨
      containsNumber u.password = false then
    some (str ("password must contain at least one uppercase letter, one lowercase letter, and one number"))
  else if trimSpace u.name = [] then
    some (str ("name cannot be empty"))
  else
    none

/-- Outcomes of the registration handler's external calls: JSON body decoding,
`firebase.NewApp`, `app.Auth`, and `client.CreateUser` (which yields the
provider-issued UID). -/
structure RegWorld where
  bodyDecode : Except Str User
  newApp : Except Str Unit
  authClient : Except Str Unit
  createUser : Except Str Str

/-- Source `RegisterUser`: create the Firebase app, get the Auth client,
create the user; first failure propagates, success returns the UID. -/
def RegisterUser (w : RegWorld) : Except Str Str :=
  match w.newApp with
  | .error e => .error e
  | .ok _ =>
    match w.authClient with
    | .error e => .error e
    | .ok _ => w.createUser

/-- Source struct `UserResponse`: the success body `{id, email, name}`.
It has no password field. -/
structure UserResponse where
  id : Str
  email : Str
  name : Str
deriving DecidableEq

/-- Source handler `UserRegistration`.  Result: HTTP status, the JSON success
body when one is written, and the plain error message when one is written. -/
def UserRegistration (w : RegWorld) : Nat × Option UserResponse × Option Str :=
  match w.bodyDecode with
  | .error _ => (400, none, some (str ("Invalid request body")))
  | .ok user =>
    match Validate user with
    | some e => (400, none, some e)
    | none =>
      match RegisterUser w with
      | .error _ => (500, none, some (str ("Failed to register user")))
      | .ok userID => (201, some ⟨userID, user.email, user.name⟩, none)

/-! ### Media-upload handler (package `mediaupload`)

Source: `src/unnamed/part_001`. -/

/-- Source constant `maxFileSize = 50 * 1024 * 1024`.  NOTE: the handler
passes this value to `r.ParseMultipartForm`, whose parameter is the
in-memory buffering threshold (`maxMemory`); per the `net/http`
documentation, file parts beyond it are spilled to temporary files on disk
and the request is NOT rejected by size.  Nothing in the source compares a
file's size against this constant. -/
def maxFileSize : Nat := 50 * 1024 * 1024

/-- Source constant `bucketName`. -/
def bucketName : Str := str ("synapscribe-media")

/-- Go `filepath.Ext`: scan backwards from the end of the path, stopping at a
path separator `/` (codepoint 47); return the suffix from the last `.`
(codepoint 46) of that final segment (dot included), or the empty string if
there is none.  (Multi-byte runes cannot interfere: their UTF-8 continuation
bytes are ≥ 0x80, never `.` or `/`, so the byte scan of the source agrees
with this codepoint scan.) -/
def filepathExt (f : Str) : Str :=
  match breakAtFirst 46 (f.reverse.takeWhile (fun c => !(c == 47))) with
  | none => []
  | some (rext, _) => 46 :: rext.reverse

/-- The allow-listed (lowercased) extensions of the upload handler's switch. -/
def extAllowList : List Str :=
  [str (".mp3"), str (".wav"), str (".ogg"),
   str (".mp4"), str (".mov"), str (".avi"),
   str (".jpg"), str (".jpeg"), str (".png"), str (".gif")]

/-- The switch of `getFileType`, on the already-lowercased extension. -/
def gftSwitch (ext : Str) : Str :=
  if ext = str (".mp3") ∨ ext = str (".wav") ∨ ext = str (".ogg") then
    str ("audio")
  else if ext = str (".mp4") ∨ ext = str (".mov") ∨ ext = str (".avi") then
    str ("video")
  else if ext = str (".jpg") ∨ ext = str (".jpeg") ∨ ext = str (".png") ∨ ext = str (".gif") then
    str ("image")
  else
    []

/-- Source `getFileType`: lowercase the extension and classify it, returning
`""` for anything outside the allow-list. -/
def getFileType (filename : Str) : Str :=
  gftSwitch ((filepathExt filename).map goToLower)

/-- The uploaded file as the handler sees it: the client-supplied filename
from the multipart header, and the byte size of the content.  The handler
never reads the size. -/
structure UploadedFile where
  filename : Str
  size : Nat
deriving DecidableEq

/-- Outcomes of the upload handler's external calls: `ParseMultipartForm`
(which per `net/http` semantics succeeds independently of the file's size),
`r.FormFile("file")`, `storage.NewClient`, the `io.Copy` into the object
writer, and the writer's `Close` (which commits the object). -/
structure UploadWorld where
  parseForm : Except Str Unit
  formFile : Except Str UploadedFile
  newClient : Except Str Unit
  copyRes : Except Str Unit
  closeRes : Except Str Unit

/-- Source struct `MediaUploadResponse` (the `uploadedAt` wall-clock field is
outside the model). -/
structure MediaUploadResponse where
  fileURL : Str
  fileName : Str
  fileType : Str
deriving DecidableEq

/-- The HTTP outcome of the upload handler: either an error body
`{code, message}` written by `sendErrorResponse`, or a 200 success body. -/
inductive MediaReply where
  | fail (code : Nat) (message : Str)
  | ok (resp : MediaUploadResponse)
deriving DecidableEq

/-- Source handler `MediaUpload`.  The second component records the object
key committed to the `synapscribe-media` bucket (`none` when no object was
finalized). -/
def MediaUpload (w : UploadWorld) : MediaReply × Option Str :=
  match w.parseForm with
  | .error _ => (.fail 400 (str ("Failed to parse form")), none)
  | .ok _ =>
    match w.formFile with
    | .error _ => (.fail 400 (str ("No file uploaded")), none)
    | .ok file =>
      let fileType := getFileType file.filename
      if fileType = [] then (.fail 400 (str ("Unsupported file type")), none)
      else
        match w.newClient with
        | .error _ => (.fail 500 (str ("Failed to create storage client")), none)
        | .ok _ =>
          let objectName := fileType ++ 47 :: file.filename
          match w.copyRes with
          | .error _ => (.fail 500 (str ("Failed to upload file")), none)
          | .ok _ =>
            match w.closeRes with
            | .error _ => (.fail 500 (str ("Failed to finalize upload")), none)
            | .ok _ =>
              (.ok ⟨str ("https://storage.cloud.google.com/") ++ bucketName ++ 47 :: objectName,
                    file.filename, fileType⟩,
               some objectName)

/-! ### Audio-transcription handler (package `audiotranscription`)

Source: `src/unnamed/part_002`. -/

/-- Source struct `StorageObjectData` (the two timestamp fields are only
logged and are outside the model). -/
structure StorageObjectData where
  bucket : Str
  name : Str
  metageneration : Int
deriving DecidableEq

/-- One candidate of the model response; its content parts, each rendered to
a string as the source does with `fmt.Sprintf`. -/
structure Candidate where
  parts : List Str
deriving DecidableEq

/-- The `GenerateContent` response: its list of candidates. -/
structure GenResponse where
  candidates : List Candidate
deriving DecidableEq

/-- Source predicate of the empty-response check:
`len(res.Candidates) == 0 || len(res.Candidates[0].Content.Parts) == 0`. -/
def emptyResponse (r : GenResponse) : Bool :=
  match r.candidates with
  | [] => true
  | c :: _ => c.parts.isEmpty

/-- Source `parseGCSURL`: require the `gs://` prefix, strip it, and split the
remainder at the first `/` (Go `strings.SplitN(path, "/", 2)` yields two
parts exactly when the remainder contains a `/`). -/
def parseGCSURL (url : Str) : Except Str (Str × Str) :=
  if (str ("gs://")).isPrefixOf url then
    match breakAtFirst 47 (url.drop 5) with
    | none => .error (str ("invalid GCS URL format"))
    | some (bucket, object) => .ok (bucket, object)
  else
    .error (str ("invalid GCS URL format"))

/-- Outcomes of the transcription pipeline's external calls, in source
order: `event.DataAs`, `genai.NewClient`, the read-only `storage.NewClient`
inside `transcribeAudio`, `obj.NewReader`, `client.UploadFile` (returning the
uploaded file's URI), `model.GenerateContent`, the destination
`storage.NewClient`, and the destination `writer.Write`.  The destination
bucket name is the `TRANSCRIPTION_BUCKET` environment value. -/
structure TransWorld where
  dataAs : Except Str StorageObjectData
  geminiClient : Except Str Unit
  gcsROClient : Except Str Unit
  reader : Except Str Unit
  uploadFile : Except Str Str
  generateContent : Except Str GenResponse
  gcsClient : Except Str Unit
  writeRes : Except Str Unit
  transcriptionBucket : Str

/-- Source `transcribeAudio`: parse the `gs://` URL, open a read-only
storage client and a reader on the source object, upload the bytes to the
model service, generate content, and extract the first part of the first
candidate; each failure propagates, and an empty model response is the error
`empty response from model`. -/
def transcribeAudio (w : TransWorld) (gcsURL : Str) : Except Str Str :=
  match parseGCSURL gcsURL with
  | .error e => .error (str ("invalid GCS URL: ") ++ e)
  | .ok _ =>
    match w.gcsROClient with
    | .error e => .error (str ("failed to create GCS client: ") ++ e)
    | .ok _ =>
      match w.reader with
      | .error e => .error (str ("failed to create reader for GCS object: ") ++ e)
      | .ok _ =>
        match w.uploadFile with
        | .error e => .error (str ("unable to upload file: ") ++ e)
        | .ok _ =>
          match w.generateContent with
          | .error e => .error (str ("unable to generate contents: ") ++ e)
          | .ok res =>
            match res.candidates with
            | [] => .error (str ("empty response from model"))
            | c :: _ =>
              match c.parts with
              | [] => .error (str ("empty response from model"))
              | p :: _ => .ok p

/-- A write of content to an object of a bucket, as committed to storage. -/
structure GCSWrite where
  bucket : Str
  object : Str
  content : Str
deriving DecidableEq

/-- Source handler `AudioTranscription`: decode the event, build
`gs://<bucket>/<name>`, create the Gemini client, transcribe, create the
destination storage client, and write `transcription-<name>.txt` to the
configured destination bucket.  The second component lists the writes
committed to the destination bucket; every error path commits none. -/
def AudioTranscription (w : TransWorld) : Except Str Unit × List GCSWrite :=
  match w.dataAs with
  | .error e => (.error (str ("event.DataAs: ") ++ e), [])
  | .ok data =>
    let gcsURL := str ("gs://") ++ data.bucket ++ 47 :: data.name
    match w.geminiClient with
    | .error e => (.error (str ("failed to create Gemini client: ") ++ e), [])
    | .ok _ =>
      match transcribeAudio w gcsURL with
      | .error e => (.error (str ("failed to transcribe audio: ") ++ e), [])
      | .ok transcription =>
        match w.gcsClient with
        | .error e => (.error (str ("failed to create GCS client: ") ++ e), [])
        | .ok _ =>
          let object := str ("transcription-") ++ data.name ++ str (".txt")
          match w.writeRes with
          | .error e => (.error (str ("failed to write transcription to GCS: ") ++ e), [])
          | .ok _ => (.ok (), [⟨w.transcriptionBucket, object, transcription⟩])

/-! ### Profile handler (package `userprofilemanagement`)

Source: `src/function/user-profile-management/function.go`. -/

/-- The identity provider's user record as read by the profile handler
(`auth.GetUser` / `auth.UpdateUser` result).  `creationMs` is
`UserMetadata.CreationTimestamp`, epoch milliseconds (non-negative). -/
structure UserRecord where
  uid : Str
  email : Str
  displayName : Str
  creationMs : Nat
deriving DecidableEq

/-- Source struct `UserProfile`.  `createdAtSec` models the value
`CreationTimestamp/1000` that the source formats as RFC3339; the calendar
rendering itself is outside the model. -/
structure UserProfile where
  id : Str
  email : Str
  name : Str
  createdAtSec : Nat
deriving DecidableEq

/-- Source struct `UserProfileUpdate`: the new display name. -/
structure UserProfileUpdate where
  name : Str
deriving DecidableEq

/-- Outcomes of the profile handler's external calls: `firebase.NewApp`,
`app.Auth`, then per-method `GetUser`, the PUT body decode, and
`UpdateUser`.  `header` is the `X-Forwarded-Authorization` value (`none`
when absent); `verify` is `VerifyIDTokenAndCheckRevoked`, mapping a token
string to the authenticated UID or an error; `method` is the HTTP method
string. -/
structure ProfileWorld where
  appInit : Except Str Unit
  authClient : Except Str Unit
  header : Option Str
  verify : Str → Except Str Str
  method : Str
  getUser : Except Str UserRecord
  decodeBody : Except Str UserProfileUpdate
  updateUser : Except Str UserRecord

/-- Source `extractToken`: read the `X-Forwarded-Authorization` header
(`Header.Get` yields `""` when absent); if it is non-empty and has the
`Bearer ` prefix, strip the prefix, otherwise return `""`. -/
def extractToken (header : Option Str) : Str :=
  let bearerToken := header.getD []
  if bearerToken ≠ [] ∧ (str ("Bearer ")).isPrefixOf bearerToken then
    bearerToken.drop 7
  else
    []

/-- The profile handler's HTTP outcome: status and, on 200, the profile
body. -/
structure ProfileOut where
  status : Nat
  body : Option UserProfile
deriving DecidableEq

/-- Source `handleGetProfile`. -/
def handleGetProfile (w : ProfileWorld) : ProfileOut :=
  match w.getUser with
  | .error _ => ⟨500, none⟩
  | .ok u => ⟨200, some ⟨u.uid, u.email, u.displayName, u.creationMs / 1000⟩⟩

/-- Source `handleUpdateProfile`. -/
def handleUpdateProfile (w : ProfileWorld) : ProfileOut :=
  match w.decodeBody with
  | .error _ => ⟨400, none⟩
  | .ok _ =>
    match w.updateUser with
    | .error _ => ⟨500, none⟩
    | .ok u => ⟨200, some ⟨u.uid, u.email, u.displayName, u.creationMs / 1000⟩⟩

/-- Source handler `UserProfileManagement`: initialize the app and Auth
client, extract and verify the token (401 when missing or when verification
fails), then dispatch on the method: GET, PUT, otherwise 405. -/
def UserProfileManagement (w : ProfileWorld) : ProfileOut :=
  match w.appInit with
  | .error _ => ⟨500, none⟩
  | .ok _ =>
    match w.authClient with
    | .error _ => ⟨500, none⟩
    | .ok _ =>
      let idToken := extractToken w.header
      if idToken = [] then ⟨401, none⟩
      else
        match w.verify idToken with
        | .error _ => ⟨401, none⟩
        | .ok _ =>
          if w.method = str ("GET") then handleGetProfile w
          else if w.method = str ("PUT") then handleUpdateProfile w
          else ⟨405, none⟩

/-! ### Authentication handler (package `userauthentication`)

Source: `src/function/user-authentication/function.go`. -/

/-- Source struct `LoginRequest`. -/
structure LoginRequest where
  email : Str
  password : Str
deriving DecidableEq

/-- Source struct `User` of the authentication package. -/
structure AuthUser where
  id : Str
  email : Str
  name : Str
deriving DecidableEq

/-- Source struct `LoginResponse`. -/
structure LoginResponse where
  idToken : Str
  user : AuthUser
deriving DecidableEq

/-- Source struct `FirebaseSignInResponse` (the refresh-token and expiry
fields are never read by the handler and are omitted). -/
structure FirebaseSignInResponse where
  idToken : Str
  email : Str
  displayName : Str
deriving DecidableEq

/-- An HTTP response from the password-sign-in endpoint: status code and raw
body. -/
structure HTTPResp where
  status : Nat
  body : Str
deriving DecidableEq

/-- Outcomes of the authentication handler's external calls: request body
decode, the `FIREBASE_API_KEY` environment value, the `http.Post` to the
sign-in endpoint, the `io.ReadAll` of its body, the `json.Unmarshal` of that
body, `firebase.NewApp`, `app.Auth`, and `VerifyIDToken` mapping a token to
the authenticated UID. -/
structure AuthWorld where
  decodeBody : Except Str LoginRequest
  apiKey : Str
  post : Except Str HTTPResp
  readBody : Except Str Unit
  unmarshal : Option FirebaseSignInResponse
  appInit : Except Str Unit
  authClient : Except Str Unit
  verify : Str → Except Str Str

/-- Source `authenticateWithFirebase`: require the API key, POST the
credentials, read the body, fail on any non-200 status, unmarshal the
body. -/
def authenticateWithFirebase (w : AuthWorld) : Except Str FirebaseSignInResponse :=
  if w.apiKey = [] then
    .error (str ("FIREBASE_API_KEY environment variable is not set"))
  else
    match w.post with
    | .error e => .error (str ("failed to send request: ") ++ e)
    | .ok resp =>
      match w.readBody with
      | .error e => .error (str ("failed to read response body: ") ++ e)
      | .ok _ =>
        if resp.status ≠ 200 then
          .error (str ("authentication failed: ") ++ resp.body)
        else
          match w.unmarshal with
          | none => .error (str ("failed to unmarshal response"))
          | some fr => .ok fr

/-- Source handler `UserAuthentication`: decode the body (400 on failure),
authenticate with the sign-in endpoint (401 on failure), initialize the app
and Auth client (500 on failure), verify the returned ID token (401 on
failure), then answer 200 with `{idToken, user}` where `idToken` is exactly
the token the sign-in call returned. -/
def UserAuthentication (w : AuthWorld) : Nat × Option LoginResponse :=
  match w.decodeBody with
  | .error _ => (400, none)
  | .ok _ =>
    match authenticateWithFirebase w with
    | .error _ => (401, none)
    | .ok firebaseResp =>
      match w.appInit with
      | .error _ => (500, none)
      | .ok _ =>
        match w.authClient with
        | .error _ => (500, none)
        | .ok _ =>
          match w.verify firebaseResp.idToken with
          | .error _ => (401, none)
          | .ok uid =>
            (200, some ⟨firebaseResp.idToken, ⟨uid, firebaseResp.email, firebaseResp.displayName⟩⟩)

/-! ### Concrete worlds used to instantiate the theorems -/

/-- Registration world: well-formed body, provider issues UID `uid123`. -/
def regOkWorld : RegWorld :=
  ⟨.ok ⟨str ("a@b.com"), str ("Passw0rd"), str ("Ada")⟩, .ok (), .ok (), .ok (str ("uid123"))⟩

/-- Registration world: well-formed body, provider rejects creation. -/
def regFailWorld : RegWorld :=
  ⟨.ok ⟨str ("a@b.com"), str ("Passw0rd"), str ("Ada")⟩, .ok (), .ok (),
   .error (str ("EMAIL_EXISTS"))⟩

/-- Upload world: a well-formed form carrying `clip.mp4`, storage healthy. -/
def clipWorld : UploadWorld :=
  ⟨.ok (), .ok ⟨str ("clip.mp4"), 1024⟩, .ok (), .ok (), .ok ()⟩

/-- Upload world: a well-formed form carrying `big.mp3` of 50 MiB + 1 byte
(the multipart parser accepts it: its argument only bounds in-memory
buffering), storage healthy. -/
def bigWorld : UploadWorld :=
  ⟨.ok (), .ok ⟨str ("big.mp3"), 52428801⟩, .ok (), .ok (), .ok ()⟩

/-- Transcription world: event for `interview.mp3` in bucket `b`, every call
healthy, but the model returns a response with no candidates. -/
def emptyRespWorld : TransWorld :=
  ⟨.ok ⟨str ("b"), str ("interview.mp3"), 1⟩, .ok (), .ok (), .ok (),
   .ok (str ("files/x")), .ok ⟨[]⟩, .ok (), .ok (), str ("transcripts")⟩

/-- Transcription world: every call healthy and the model returns one
candidate with one part. -/
def goodTransWorld : TransWorld :=
  ⟨.ok ⟨str ("b"), str ("interview.mp3"), 1⟩, .ok (), .ok (), .ok (),
   .ok (str ("files/x")), .ok ⟨[⟨[str ("hello world")]⟩]⟩, .ok (), .ok (),
   str ("transcripts")⟩

/-- Profile world: header present but not `Bearer `-prefixed. -/
def profileNoBearerWorld : ProfileWorld :=
  ⟨.ok (), .ok (), some (str ("Token abc")), fun _ => .ok (str ("u1")),
   str ("GET"), .ok ⟨str ("u1"), str ("a@b.com"), str ("Ada"), 1700000000000⟩,
   .ok ⟨str ("Bea")⟩, .ok ⟨str ("u1"), str ("a@b.com"), str ("Bea"), 1700000000000⟩⟩

/-- Profile world: `Bearer `-prefixed token that fails verification. -/
def profileBadTokenWorld : ProfileWorld :=
  ⟨.ok (), .ok (), some (str ("Bearer expired")), fun _ => .error (str ("revoked")),
   str ("GET"), .ok ⟨str ("u1"), str ("a@b.com"), str ("Ada"), 1700000000000⟩,
   .ok ⟨str ("Bea")⟩, .ok ⟨str ("u1"), str ("a@b.com"), str ("Bea"), 1700000000000⟩⟩

/-- Profile world: valid bearer token, method DELETE. -/
def profileDeleteWorld : ProfileWorld :=
  ⟨.ok (), .ok (), some (str ("Bearer tok")), fun _ => .ok (str ("u1")),
   str ("DELETE"), .ok ⟨str ("u1"), str ("a@b.com"), str ("Ada"), 1700000000000⟩,
   .ok ⟨str ("Bea")⟩, .ok ⟨str ("u1"), str ("a@b.com"), str ("Bea"), 1700000000000⟩⟩

/-- Authentication world: the sign-in endpoint answers 400. -/
def authBadStatusWorld : AuthWorld :=
  ⟨.ok ⟨str ("a@b.com"), str ("wrong")⟩, str ("key"), .ok ⟨400, str ("INVALID_PASSWORD")⟩,
   .ok (), none, .ok (), .ok (), fun _ => .ok (str ("u1"))⟩

/-- Authentication world: sign-in succeeds with token `tok` and the token
verifies. -/
def authOkWorld : AuthWorld :=
  ⟨.ok ⟨str ("a@b.com"), str ("Passw0rd")⟩, str ("key"), .ok ⟨200, str ("{}")⟩,
   .ok (), some ⟨str ("tok"), str ("a@b.com"), str ("Ada")⟩, .ok (), .ok (),
   fun _ => .ok (str ("u1"))⟩

/-! ### Helper lemmas -/

theorem list_map_eq_self_iff (f : Nat → Nat) (l : Str) :
    l.map f = l ↔ ∀ c ∈ l, f c = c := by
  induction l with
  | nil => simp
  | cons x xs ih => simp_all

theorem goToLower_ne_iff (c : Nat) : goToLower c ≠ c ↔ 65 ≤ c ∧ c ≤ 90 := by
  unfold goToLower
  split <;> omega

theorem goToUpper_ne_iff (c : Nat) : goToUpper c ≠ c ↔ 97 ≤ c ∧ c ≤ 122 := by
  unfold goToUpper
  split <;> omega

theorem containsUppercase_iff (s : Str) :
    containsUppercase s = true ↔ ∃ c ∈ s, 65 ≤ c ∧ c ≤ 90 := by
  unfold containsUppercase
  rw [bne_iff_ne, Ne, list_map_eq_self_iff]
  push_neg
  exact exists_congr fun c => and_congr_right fun _ => goToLower_ne_iff c

theorem containsLowercase_iff (s : Str) :
    containsLowercase s = true ↔ ∃ c ∈ s, 97 ≤ c ∧ c ≤ 122 := by
  unfold containsLowercase
  rw [bne_iff_ne, Ne, list_map_eq_self_iff]
  push_neg
  exact exists_congr fun c => and_congr_right fun _ => goToUpper_ne_iff c

theorem containsNumber_iff (s : Str) :
    containsNumber s = true ↔ ∃ c ∈ s, 48 ≤ c ∧ c ≤ 57 := by
  unfold containsNumber isDigitChar
  simp [List.any_eq_true]

theorem utf8Len_ascii {s : Str} (h : ∀ c ∈ s, c < 128) : utf8Len s = s.length := by
  induction s with
  | nil => rfl
  | cons x xs ih =>
    have hx : x < 128 := h x (List.mem_cons_self x xs)
    have h1 : utf8Size x = 1 := by unfold utf8Size; rw [if_pos hx]
    have ih2 := ih (fun c hc => h c (List.mem_cons_of_mem x hc))
    simp only [utf8Len, List.map_cons, List.sum_cons, List.length_cons] at *
    omega

theorem breakAtFirst_eq_none_iff (a : Nat) (l : Str) :
    breakAtFirst a l = none ↔ a ∉ l := by
  induction l with
  | nil => simp [breakAtFirst]
  | cons x xs ih =>
    by_cases hx : x = a
    · subst hx
      simp [breakAtFirst]
    · rw [breakAtFirst, if_neg hx]
      cases h : breakAtFirst a xs with
      | none =>
        simp only [List.mem_cons, not_or]
        constructor
        · intro _
          exact ⟨fun hax => hx hax.symm, ih.mp h⟩
        · intro _
          trivial
      | some p =>
        obtain ⟨pl, pr⟩ := p
        simp only [List.mem_cons, not_or]
        constructor
        · intro hc
          exact absurd hc (by simp)
        · rintro ⟨hax, hmem⟩
          have hnone := ih.mpr hmem
          rw [h] at hnone
          simp at hnone

theorem breakAtFirst_append {a : Nat} {B : Str} (N : Str) (h : a ∉ B) :
    breakAtFirst a (B ++ a :: N) = some (B, N) := by
  induction B with
  | nil => simp [breakAtFirst]
  | cons b bs ih =>
    have hb : b ≠ a := fun hba => h (hba ▸ List.mem_cons_self b bs)
    have hbs : a ∉ bs := fun hm => h (List.mem_cons_of_mem b hm)
    rw [List.cons_append, breakAtFirst, if_neg hb, ih hbs]

theorem bool_eq_true_of_ne_false {b : Bool} (h : ¬ b = false) : b = true := by
  cases b
  · exact absurd rfl h
  · rfl

/-! ### Claims -/

/-- C1: registration input validation is a complete characterization: for an
ASCII password, `Validate` succeeds iff the email matches the anchored
pattern, the password has length ≥ 8 and contains an uppercase letter, a
lowercase letter, and a digit, and the name is not whitespace-only; moreover
`user@example.com` matches the pattern while `foo@bar` and `a@b.toolong` do
not. -/
theorem c1_validate_characterization :
    (∀ u : User, (∀ c ∈ u.password, c < 128) →
      (Validate u = none ↔
        (matchEmail u.email = true ∧ 8 ≤ u.password.length ∧
         (∃ c ∈ u.password, 65 ≤ c ∧ c ≤ 90) ∧
         (∃ c ∈ u.password, 97 ≤ c ∧ c ≤ 122) ∧
         (∃ c ∈ u.password, 48 ≤ c ∧ c ≤ 57) ∧
         trimSpace u.name ≠ []))) ∧
    matchEmail (str ("user@example.com")) = true ∧
    matchEmail (str ("foo@bar")) = false ∧
    matchEmail (str ("a@b.toolong")) = false := by
  refine ⟨?_, by decide, by decide, by decide⟩
  intro u hp
  have hlen : utf8Len u.password = u.password.length := utf8Len_ascii hp
  unfold Validate
  split_ifs with h1 h2 h3 h4
  · exact iff_of_false (by simp) (fun hr => absurd hr.1 (by simp [h1]))
  · refine iff_of_false (by simp) (fun hr => ?_)
    have := hr.2.1
    omega
  · refine iff_of_false (by simp) (fun hr => ?_)
    rcases h3 with h | h | h
    · exact absurd ((containsUppercase_iff _).mpr hr.2.2.1) (by simp [h])
    · exact absurd ((containsLowercase_iff _).mpr hr.2.2.2.1) (by simp [h])
    · exact absurd ((containsNumber_iff _).mpr hr.2.2.2.2.1) (by simp [h])
  · exact iff_of_false (by simp) (fun hr => hr.2.2.2.2.2 h4)
  · push_neg at h3
    refine iff_of_true rfl ⟨?_, by omega, ?_, ?_, ?_, h4⟩
    · have := bool_eq_true_of_ne_false (b := matchEmail u.email) h1
      exact this
    · exact (containsUppercase_iff _).mp (bool_eq_true_of_ne_false h3.1)
    · exact (containsLowercase_iff _).mp (bool_eq_true_of_ne_false h3.2.1)
    · exact (containsNumber_iff _).mp (bool_eq_true_of_ne_false h3.2.2)

/-- C1 witness: the registration scenario values pass validation. -/
theorem c1_validate_witness :
    Validate ⟨str ("user@example.com"), str ("Passw0rd"), str ("Ada")⟩ = none :=
  (c1_validate_characterization.1 ⟨str ("user@example.com"), str ("Passw0rd"), str ("Ada")⟩
    (by decide)).mpr (by decide)

/-- C10: `gs://` URL construction and parsing round-trip: for a bucket
without `/` and a non-empty object name, `parseGCSURL` on the constructed
URL returns the pair unchanged; a string lacking the `gs://` prefix or
lacking a `/` after the bucket yields an error. -/
theorem c10_parseGCSURL_roundtrip :
    (∀ B N : Str, 47 ∉ B → N ≠ [] →
      parseGCSURL (str ("gs://") ++ B ++ 47 :: N) = .ok (B, N)) ∧
    (∀ s : Str, ((str ("gs://")).isPrefixOf s = false ∨ 47 ∉ s.drop 5) →
      ∃ e, parseGCSURL s = .error e) := by
  constructor
  · intro B N hB _
    unfold parseGCSURL
    have hpre : (str ("gs://")).isPrefixOf (str ("gs://") ++ B ++ 47 :: N) = true := by
      rw [List.isPrefixOf_iff_prefix, List.append_assoc]
      exact List.prefix_append _ _
    rw [if_pos hpre]
    have hdrop : (str ("gs://") ++ B ++ 47 :: N).drop 5 = B ++ 47 :: N := by
      rw [List.append_assoc]
      exact List.drop_left' (by rfl)
    rw [hdrop, breakAtFirst_append N hB]
  · intro s hs
    unfold parseGCSURL
    by_cases hpre : (str ("gs://")).isPrefixOf s = true
    · rcases hs with h1 | h2
      · rw [hpre] at h1
        cases h1
      · rw [if_pos hpre, (breakAtFirst_eq_none_iff 47 (s.drop 5)).mpr h2]
        exact ⟨_, rfl⟩
    · rw [if_neg hpre]
      exact ⟨_, rfl⟩

/-- C10 witness: the round-trip at bucket `b` and object `interview.mp3`,
and the error case at a prefix-free string. -/
theorem c10_parseGCSURL_witness :
    parseGCSURL (str ("gs://") ++ str ("b") ++ 47 :: str ("interview.mp3")) =
      .ok (str ("b"), str ("interview.mp3")) ∧
    ∃ e, parseGCSURL (str ("nope")) = .error e :=
  ⟨c10_parseGCSURL_roundtrip.1 (str ("b")) (str ("interview.mp3")) (by decide) (by decide),
   c10_parseGCSURL_roundtrip.2 (str ("nope")) (Or.inl (by decide))⟩

theorem getFileType_eq_nil_iff (f : Str) :
    getFileType f = [] ↔ (filepathExt f).map goToLower ∉ extAllowList := by
  unfold getFileType gftSwitch extAllowList
  split_ifs with h1 h2 h3
  · exact iff_of_false (by decide) (fun hn => hn (by rcases h1 with h | h | h <;> simp [h]))
  · exact iff_of_false (by decide) (fun hn => hn (by rcases h2 with h | h | h <;> simp [h]))
  · exact iff_of_false (by decide) (fun hn => hn (by rcases h3 with h | h | h | h <;> simp [h]))
  · refine iff_of_true rfl (fun hm => ?_)
    push_neg at h1 h2 h3
    simp only [List.mem_cons, List.not_mem_nil, or_false] at hm
    tauto

theorem getFileType_mem_of_ne_nil {f : Str} (h : getFileType f ≠ []) :
    getFileType f = str ("audio") ∨ getFileType f = str ("video") ∨
      getFileType f = str ("image") := by
  unfold getFileType gftSwitch at h ⊢
  split_ifs at h ⊢
  · exact Or.inl rfl
  · exact Or.inr (Or.inl rfl)
  · exact Or.inr (Or.inr rfl)
  · exact absurd rfl h

/-- C3: with a parsed form and a present file, the upload handler answers
400 exactly when the lowercased extension is outside the allow-list;
otherwise (with healthy storage) it classifies the file into one of
audio/video/image and commits it under the key `<type>/<filename>`;
concretely `clip.mp4` classifies as `video` and `x.pdf` is rejected. -/
theorem c3_upload_classification :
    (∀ (w : UploadWorld) (f : UploadedFile), w.parseForm = .ok () → w.formFile = .ok f →
      ((∃ m, (MediaUpload w).1 = .fail 400 m) ↔
        (filepathExt f.filename).map goToLower ∉ extAllowList) ∧
      (w.newClient = .ok () → w.copyRes = .ok () → w.closeRes = .ok () →
        (filepathExt f.filename).map goToLower ∈ extAllowList →
        (getFileType f.filename = str ("audio") ∨ getFileType f.filename = str ("video") ∨
         getFileType f.filename = str ("image")) ∧
        (MediaUpload w).2 = some (getFileType f.filename ++ 47 :: f.filename))) ∧
    getFileType (str ("clip.mp4")) = str ("video") ∧
    getFileType (str ("x.pdf")) = [] := by
  refine ⟨?_, by decide, by decide⟩
  intro w f hp hf
  constructor
  · by_cases hft : getFileType f.filename = []
    · refine iff_of_true ⟨str ("Unsupported file type"), ?_⟩ ((getFileType_eq_nil_iff _).mp hft)
      simp [MediaUpload, hp, hf, hft]
    · refine iff_of_false ?_ (fun hnm => hft ((getFileType_eq_nil_iff _).mpr hnm))
      rintro ⟨m, hm⟩
      rcases hnc : w.newClient with e | u
      · simp [MediaUpload, hp, hf, hft, hnc] at hm
      · rcases hcp : w.copyRes with e | u2
        · simp [MediaUpload, hp, hf, hft, hnc, hcp] at hm
        · rcases hcl : w.closeRes with e | u3
          · simp [MediaUpload, hp, hf, hft, hnc, hcp, hcl] at hm
          · simp [MediaUpload, hp, hf, hft, hnc, hcp, hcl] at hm
  · intro hnc hcp hcl hmem
    have hft : getFileType f.filename ≠ [] := fun h0 => ((getFileType_eq_nil_iff _).mp h0) hmem
    exact ⟨getFileType_mem_of_ne_nil hft, by simp [MediaUpload, hp, hf, hft, hnc, hcp, hcl]⟩

/-- C3 witness: the `clip.mp4` scenario commits the key `video/clip.mp4`. -/
theorem c3_upload_witness :
    (getFileType (str ("clip.mp4")) = str ("audio") ∨
     getFileType (str ("clip.mp4")) = str ("video") ∨
     getFileType (str ("clip.mp4")) = str ("image")) ∧
    (MediaUpload clipWorld).2 = some (getFileType (str ("clip.mp4")) ++ 47 :: str ("clip.mp4")) :=
  (c3_upload_classification.1 clipWorld ⟨str ("clip.mp4"), 1024⟩ rfl rfl).2 rfl rfl rfl (by decide)

/-- C8 is a code bug: `maxFileSize` is only passed to `ParseMultipartForm`
as its in-memory buffering threshold, which does not bound the request, and
no code path compares a file's size to it — so a 50 MiB + 1 byte file is
parsed, accepted and committed, not rejected.  This theorem evaluates the
handler at that failing input. -/
theorem c8_no_size_cap :
    bigWorld.formFile = .ok ⟨str ("big.mp3"), 52428801⟩ ∧
    maxFileSize < 52428801 ∧
    (MediaUpload bigWorld).1 =
      MediaReply.ok ⟨str ("https://storage.cloud.google.com/synapscribe-media/audio/big.mp3"),
        str ("big.mp3"), str ("audio")⟩ ∧
    (MediaUpload bigWorld).2 = some (str ("audio/big.mp3")) :=
  ⟨rfl, by decide, by decide, by decide⟩

theorem transcribeAudio_empty (w : TransWorld) (url : Str) (res : GenResponse)
    (hgen : w.generateContent = .ok res) (hempty : emptyResponse res = true) :
    ∃ e, transcribeAudio w url = .error e := by
  unfold transcribeAudio
  cases hp : parseGCSURL url with
  | error e => exact ⟨_, rfl⟩
  | ok p =>
    cases hro : w.gcsROClient with
    | error e => exact ⟨_, rfl⟩
    | ok u1 =>
      cases hrd : w.reader with
      | error e => exact ⟨_, rfl⟩
      | ok u2 =>
        cases hup : w.uploadFile with
        | error e => exact ⟨_, rfl⟩
        | ok uri =>
          rw [hgen]
          obtain ⟨cands⟩ := res
          cases cands with
          | nil => exact ⟨_, rfl⟩
          | cons c cs =>
            obtain ⟨ps⟩ := c
            cases ps with
            | nil => exact ⟨_, rfl⟩
            | cons p ps =>
              exfalso
              simp [emptyResponse] at hempty

/-- C2: whenever the model response carries no candidates or no content
parts, the transcription handler returns an error and commits no write to
the destination bucket. -/
theorem c2_empty_response_no_write (w : TransWorld) (res : GenResponse)
    (hgen : w.generateContent = .ok res) (hempty : emptyResponse res = true) :
    (∃ e, (AudioTranscription w).1 = .error e) ∧ (AudioTranscription w).2 = [] := by
  cases hda : w.dataAs with
  | error e =>
    simp only [AudioTranscription, hda]
    exact ⟨⟨_, rfl⟩, trivial⟩
  | ok data =>
    cases hg : w.geminiClient with
    | error e =>
      simp only [AudioTranscription, hda, hg]
      exact ⟨⟨_, rfl⟩, trivial⟩
    | ok u =>
      obtain ⟨e, he⟩ :=
        transcribeAudio_empty w (str ("gs://") ++ data.bucket ++ 47 :: data.name) res hgen hempty
      simp only [AudioTranscription, hda, hg, he]
      exact ⟨⟨_, rfl⟩, trivial⟩

/-- C2 witness: the `interview.mp3` event with an empty model response
yields an error and no destination write. -/
theorem c2_empty_response_witness :
    (∃ e, (AudioTranscription emptyRespWorld).1 = .error e) ∧
    (AudioTranscription emptyRespWorld).2 = [] :=
  c2_empty_response_no_write emptyRespWorld ⟨[]⟩ rfl rfl

/-- C7: a successful transcription run commits exactly one write, to the
configured destination bucket, under the object name
`transcription-<source-name>.txt`. -/
theorem c7_write_derived_name (w : TransWorld)
    (hok : (AudioTranscription w).1 = .ok ()) :
    ∃ data transcription, w.dataAs = .ok data ∧
      (AudioTranscription w).2 =
        [⟨w.transcriptionBucket, str ("transcription-") ++ data.name ++ str (".txt"),
          transcription⟩] := by
  cases hda : w.dataAs with
  | error e =>
    simp only [AudioTranscription, hda] at hok
    simp at hok
  | ok data =>
    simp only [AudioTranscription, hda] at hok ⊢
    cases hg : w.geminiClient with
    | error e =>
      simp only [hg] at hok
      simp at hok
    | ok u =>
      simp only [hg] at hok ⊢
      cases ht : transcribeAudio w (str ("gs://") ++ data.bucket ++ 47 :: data.name) with
      | error e =>
        simp only [ht] at hok
        simp at hok
      | ok transcription =>
        simp only [ht] at hok ⊢
        cases hc : w.gcsClient with
        | error e =>
          simp only [hc] at hok
          simp at hok
        | ok u2 =>
          simp only [hc] at hok ⊢
          cases hw : w.writeRes with
          | error e =>
            simp only [hw] at hok
            simp at hok
          | ok u3 => exact ⟨data, transcription, rfl, by simp only [hw]⟩

/-- C7 witness: the healthy world writes exactly
`transcription-interview.mp3.txt` to the configured bucket. -/
theorem c7_write_derived_name_witness :
    ∃ data transcription, goodTransWorld.dataAs = .ok data ∧
      (AudioTranscription goodTransWorld).2 =
        [⟨goodTransWorld.transcriptionBucket,
          str ("transcription-") ++ data.name ++ str (".txt"), transcription⟩] :=
  c7_write_derived_name goodTransWorld rfl

/-- C4: a profile request whose forwarded-authorization header is absent or
not `Bearer `-prefixed extracts the empty token and is answered 401
(provided the app and Auth client initialize, which precede the token
check). -/
theorem c4_missing_bearer_401 (w : ProfileWorld)
    (ha : w.appInit = .ok ()) (hc : w.authClient = .ok ())
    (hh : w.header = none ∨ ∃ h, w.header = some h ∧ (str ("Bearer ")).isPrefixOf h = false) :
    extractToken w.header = [] ∧ (UserProfileManagement w).status = 401 := by
  have htok : extractToken w.header = [] := by
    unfold extractToken
    rcases hh with h0 | ⟨h, hsome, hpre⟩
    · rw [h0]
      rfl
    · rw [hsome]
      simp only [Option.getD_some]
      rw [if_neg]
      rintro ⟨_, hp⟩
      rw [hpre] at hp
      cases hp
  refine ⟨htok, ?_⟩
  simp [UserProfileManagement, ha, hc, htok]

/-- C4 witness: a header carrying `Token abc` is treated as no token and
answered 401. -/
theorem c4_missing_bearer_witness :
    extractToken profileNoBearerWorld.header = [] ∧
    (UserProfileManagement profileNoBearerWorld).status = 401 :=
  c4_missing_bearer_401 profileNoBearerWorld rfl rfl
    (Or.inr ⟨str ("Token abc"), rfl, by decide⟩)

/-- C9: the profile handler verifies the token before dispatching on the
method: a missing or unverifiable token yields 401 for every method, and a
405 is reachable only with a nonempty token that verified, on a method that
is neither GET nor PUT. -/
theorem c9_verify_before_dispatch (w : ProfileWorld)
    (ha : w.appInit = .ok ()) (hc : w.authClient = .ok ()) :
    ((extractToken w.header = [] ∨ (∃ e, w.verify (extractToken w.header) = .error e)) →
      (UserProfileManagement w).status = 401) ∧
    ((UserProfileManagement w).status = 405 →
      extractToken w.header ≠ [] ∧
      (∃ uid, w.verify (extractToken w.header) = .ok uid) ∧
      w.method ≠ str ("GET") ∧ w.method ≠ str ("PUT")) := by
  constructor
  · rintro (h0 | ⟨e, he⟩)
    · simp [UserProfileManagement, ha, hc, h0]
    · by_cases h0 : extractToken w.header = []
      · simp [UserProfileManagement, ha, hc, h0]
      · simp [UserProfileManagement, ha, hc, h0, he]
  · intro h405
    by_cases h0 : extractToken w.header = []
    · simp [UserProfileManagement, ha, hc, h0] at h405
    · cases hv : w.verify (extractToken w.header) with
      | error e => simp [UserProfileManagement, ha, hc, h0, hv] at h405
      | ok uid =>
        by_cases hmg : w.method = str ("GET")
        · exfalso
          rcases hg : w.getUser with e | u <;>
            simp [UserProfileManagement, handleGetProfile, ha, hc, h0, hv, hmg, hg] at h405
        · by_cases hmp : w.method = str ("PUT")
          · exfalso
            have hge : ¬ str ("PUT") = str ("GET") := by decide
            rcases hd : w.decodeBody with e | u
            · simp [UserProfileManagement, handleUpdateProfile, ha, hc, h0, hv, hmg, hmp, hge,
                hd] at h405
            · rcases hu : w.updateUser with e | u2 <;>
                simp [UserProfileManagement, handleUpdateProfile, ha, hc, h0, hv, hmg, hmp,
                  hge, hd, hu] at h405
          · exact ⟨h0, ⟨uid, rfl⟩, hmg, hmp⟩

/-- C9 witness: a failing verification yields 401, and the valid-token
DELETE request that reached 405 indeed carried a verified token and a
method outside GET/PUT. -/
theorem c9_verify_before_dispatch_witness :
    (UserProfileManagement profileBadTokenWorld).status = 401 ∧
    (extractToken profileDeleteWorld.header ≠ [] ∧
     (∃ uid, profileDeleteWorld.verify (extractToken profileDeleteWorld.header) = .ok uid) ∧
     profileDeleteWorld.method ≠ str ("GET") ∧ profileDeleteWorld.method ≠ str ("PUT")) :=
  ⟨(c9_verify_before_dispatch profileBadTokenWorld rfl rfl).1 (Or.inr ⟨str ("revoked"), rfl⟩),
   (c9_verify_before_dispatch profileDeleteWorld rfl rfl).2 rfl⟩

/-- C5: a non-200 answer from the password-sign-in endpoint makes the
handler fail 401 with no body; and a 200 response with a body is produced
only when the sign-in call succeeded, the returned token was independently
verified, and the body's idToken equals the sign-in call's token. -/
theorem c5_auth_contract (w : AuthWorld) :
    (∀ (req : LoginRequest) (r : HTTPResp), w.decodeBody = .ok req → w.apiKey ≠ [] →
      w.readBody = .ok () → w.post = .ok r → r.status ≠ 200 →
      UserAuthentication w = (401, none)) ∧
    (∀ resp : LoginResponse, UserAuthentication w = (200, some resp) →
      ∃ fr uid, authenticateWithFirebase w = .ok fr ∧ w.verify fr.idToken = .ok uid ∧
        resp.idToken = fr.idToken) := by
  constructor
  · intro req r hd hk hrb hp hs
    have hauth : ∃ e, authenticateWithFirebase w = .error e := by
      unfold authenticateWithFirebase
      rw [if_neg hk]
      simp only [hp, hrb]
      rw [if_pos hs]
      exact ⟨_, rfl⟩
    obtain ⟨e, he⟩ := hauth
    simp [UserAuthentication, hd, he]
  · intro resp h200
    cases hd : w.decodeBody with
    | error e =>
      simp only [UserAuthentication, hd] at h200
      simp at h200
    | ok req =>
      simp only [UserAuthentication, hd] at h200
      cases hau : authenticateWithFirebase w with
      | error e =>
        simp only [hau] at h200
        simp at h200
      | ok fr =>
        simp only [hau] at h200
        cases hai : w.appInit with
        | error e =>
          simp only [hai] at h200
          simp at h200
        | ok u1 =>
          simp only [hai] at h200
          cases hac : w.authClient with
          | error e =>
            simp only [hac] at h200
            simp at h200
          | ok u2 =>
            simp only [hac] at h200
            cases hv : w.verify fr.idToken with
            | error e =>
              simp only [hv] at h200
              simp at h200
            | ok uid =>
              simp only [hv] at h200
              simp only [Prod.mk.injEq, Option.some.injEq] at h200
              exact ⟨fr, uid, rfl, hv, by rw [← h200.2]⟩

/-- C5 witness: the 400-status sign-in world is answered 401, and the
healthy world's 200 body carries exactly the sign-in call's token. -/
theorem c5_auth_contract_witness :
    UserAuthentication authBadStatusWorld = (401, none) ∧
    (∃ fr uid, authenticateWithFirebase authOkWorld = .ok fr ∧
      authOkWorld.verify fr.idToken = .ok uid ∧
      (str ("tok")) = fr.idToken) :=
  ⟨(c5_auth_contract authBadStatusWorld).1 ⟨str ("a@b.com"), str ("wrong")⟩
      ⟨400, str ("INVALID_PASSWORD")⟩ rfl (by decide) rfl rfl (by decide),
   (c5_auth_contract authOkWorld).2
      ⟨str ("tok"), ⟨str ("u1"), str ("a@b.com"), str ("Ada")⟩⟩ rfl⟩

/-- C6: a registration that passes validation answers 201 with a body that
is exactly `{id := provider uid, email := request email, name := request
name}` (no password field exists in the response), and a failed provider
creation answers 500 with the fixed generic message, independent of the
provider's error detail. -/
theorem c6_registration_response (w : RegWorld) (user : User)
    (hd : w.bodyDecode = .ok user) (hv : Validate user = none) :
    (∀ uid, RegisterUser w = .ok uid →
      UserRegistration w = (201, some ⟨uid, user.email, user.name⟩, none)) ∧
    (∀ e, RegisterUser w = .error e →
      UserRegistration w = (500, none, some (str ("Failed to register user")))) := by
  constructor
  · intro uid hr
    simp [UserRegistration, hd, hv, hr]
  · intro e hr
    simp [UserRegistration, hd, hv, hr]

/-- C6 witness: the scenario registration answers 201 echoing email and
name with the provider-issued id, and the provider-failure world answers
500 with the generic message. -/
theorem c6_registration_response_witness :
    UserRegistration regOkWorld =
      (201, some ⟨str ("uid123"), str ("a@b.com"), str ("Ada")⟩, none) ∧
    UserRegistration regFailWorld =
      (500, none, some (str ("Failed to register user"))) :=
  ⟨(c6_registration_response regOkWorld ⟨str ("a@b.com"), str ("Passw0rd"), str ("Ada")⟩
      rfl (by decide)).1 (str ("uid123")) rfl,
   (c6_registration_response regFailWorld ⟨str ("a@b.com"), str ("Passw0rd"), str ("Ada")⟩
      rfl (by decide)).2 (str ("EMAIL_EXISTS")) rfl⟩

end SynapScribe
